import Mathlib

/-!
Verification development for the BioLogic potentiostat control stack
(`biologic` package, `biologic_host.py` job server, `biologic_client.py`).

The definitions below are a shallow embedding of the Python source:
pure functions become Lean functions, dynamically-typed Python values
become the `PyVal` sum type, raising code returns `Except`/pairs with an
optional exception, and the stateful channel/runner/server code becomes
explicit state passing producing event traces.  Python floats are
carried as rationals; the code under study only compares and copies
them, never performs float arithmetic.
-/

namespace BL

/-- Device hardware generation (`biologic.deviceinfo.DeviceFamily`). -/
inductive DeviceFamily
  | VMP3
  | SP300
deriving DecidableEq

/-- Device identity seen by validation (`biologic.deviceinfo.DeviceInfo`);
only the family is consulted by the code modelled here. -/
structure DeviceInfo where
  family : DeviceFamily
deriving DecidableEq

/-- Instrument channel state (`kbio.types.PROG_STATE`, external driver enum). -/
inductive PROG_STATE
  | STOP
  | RUN
  | PAUSE
  | SYNC
deriving DecidableEq

/-- Technique identifier (`kbio.tech.TECH_ID`, external driver enum);
a representative subset of the driver's constructors. -/
inductive TECH_ID
  | NONE
  | OCV
  | CV
  | PEIS
  | CA
deriving DecidableEq

/-- Voltage range setting (`kbio.types.E_RANGE`, external driver enum). -/
inductive E_RANGE
  | E_RANGE_2_5
  | E_RANGE_5
  | E_RANGE_10
  | E_RANGE_AUTO
deriving DecidableEq

/-- Symbolic name of an `E_RANGE` member (Python `Enum.name`). -/
def E_RANGE.toName : E_RANGE → String
  | .E_RANGE_2_5 => "E_RANGE_2_5"
  | .E_RANGE_5 => "E_RANGE_5"
  | .E_RANGE_10 => "E_RANGE_10"
  | .E_RANGE_AUTO => "E_RANGE_AUTO"

/-- Name lookup for `E_RANGE` (Python `E_RANGE[s]`), `none` when the lookup
would raise `KeyError`. -/
def E_RANGE.fromName (s : String) : Option E_RANGE :=
  if s = "E_RANGE_2_5" then some .E_RANGE_2_5
  else if s = "E_RANGE_5" then some .E_RANGE_5
  else if s = "E_RANGE_10" then some .E_RANGE_10
  else if s = "E_RANGE_AUTO" then some .E_RANGE_AUTO
  else none

/-- Current range setting (`kbio.types.I_RANGE`, external driver enum);
a representative subset of the driver's constructors. -/
inductive I_RANGE
  | I_RANGE_KEEP
  | I_RANGE_100pA
  | I_RANGE_1uA
  | I_RANGE_1mA
  | I_RANGE_1A
  | I_RANGE_AUTO
deriving DecidableEq

/-- Symbolic name of an `I_RANGE` member. -/
def I_RANGE.toName : I_RANGE → String
  | .I_RANGE_KEEP => "I_RANGE_KEEP"
  | .I_RANGE_100pA => "I_RANGE_100pA"
  | .I_RANGE_1uA => "I_RANGE_1uA"
  | .I_RANGE_1mA => "I_RANGE_1mA"
  | .I_RANGE_1A => "I_RANGE_1A"
  | .I_RANGE_AUTO => "I_RANGE_AUTO"

/-- Name lookup for `I_RANGE`, `none` when the lookup would raise. -/
def I_RANGE.fromName (s : String) : Option I_RANGE :=
  if s = "I_RANGE_KEEP" then some .I_RANGE_KEEP
  else if s = "I_RANGE_100pA" then some .I_RANGE_100pA
  else if s = "I_RANGE_1uA" then some .I_RANGE_1uA
  else if s = "I_RANGE_1mA" then some .I_RANGE_1mA
  else if s = "I_RANGE_1A" then some .I_RANGE_1A
  else if s = "I_RANGE_AUTO" then some .I_RANGE_AUTO
  else none

/-- Bandwidth setting (`kbio.types.BANDWIDTH`, external driver enum);
a representative subset of the driver's constructors. -/
inductive BANDWIDTH
  | BW_KEEP
  | BW_1
  | BW_5
  | BW_9
deriving DecidableEq

/-- Symbolic name of a `BANDWIDTH` member. -/
def BANDWIDTH.toName : BANDWIDTH → String
  | .BW_KEEP => "BW_KEEP"
  | .BW_1 => "BW_1"
  | .BW_5 => "BW_5"
  | .BW_9 => "BW_9"

/-- Name lookup for `BANDWIDTH`, `none` when the lookup would raise. -/
def BANDWIDTH.fromName (s : String) : Option BANDWIDTH :=
  if s = "BW_KEEP" then some .BW_KEEP
  else if s = "BW_1" then some .BW_1
  else if s = "BW_5" then some .BW_5
  else if s = "BW_9" then some .BW_9
  else none

/-- One named validation failure (`biologic.params.ValidationError`). -/
structure ValidationError where
  param : String
  message : String
deriving DecidableEq

/-- Python exceptions that the modelled code can raise or store. -/
inductive PyExc
  | typeError
  | valueError (msg : String)
  | runtimeError (msg : String)
  | channelStopped
  | exceptionGroup (msg : String) (errors : List ValidationError)
  | unpackDataError (msg : String)
deriving DecidableEq

/-- Dynamically-typed Python value.  Constructors cover the value shapes
that flow through the parameter schema: `None`, booleans, ints, floats
(carried as rationals), strings, the three hardware enums, lists and
string-keyed dicts (used for the portable structured form). -/
inductive PyVal
  | vNone
  | vBool (b : Bool)
  | vInt (n : Int)
  | vFloat (q : ℚ)
  | vStr (s : String)
  | vERange (e : E_RANGE)
  | vIRange (i : I_RANGE)
  | vBandwidth (bw : BANDWIDTH)
  | vList (xs : List PyVal)
  | vObj (fields : List (String × PyVal))

namespace PyVal

/-- Whether the value is Python `None`. -/
def isNone : PyVal → Bool
  | .vNone => true
  | _ => false

/-- Whether `isinstance(value, numbers.Number)` holds: Python's numeric
tower includes `bool` (a subclass of `int`). -/
def isNumber : PyVal → Bool
  | .vBool _ => true
  | .vInt _ => true
  | .vFloat _ => true
  | _ => false

/-- Whether `isinstance(value, bool)` holds. -/
def isBool : PyVal → Bool
  | .vBool _ => true
  | _ => false

/-- Whether the value is an `E_RANGE` member. -/
def isERange : PyVal → Bool
  | .vERange _ => true
  | _ => false

/-- Whether the value is an `I_RANGE` member. -/
def isIRange : PyVal → Bool
  | .vIRange _ => true
  | _ => false

/-- Whether the value is a `BANDWIDTH` member. -/
def isBandwidth : PyVal → Bool
  | .vBandwidth _ => true
  | _ => false

/-- Numeric content of a value when it has one (`True` counts as 1,
`False` as 0, matching Python's numeric tower). -/
def toRat : PyVal → Option ℚ
  | .vBool b => some (if b then 1 else 0)
  | .vInt n => some (n : ℚ)
  | .vFloat q => some q
  | _ => none

/-- Whether `isinstance(value, collections.abc.Iterable)` holds for the
value shapes in this model: lists, dicts and strings are iterable. -/
def isIterable : PyVal → Bool
  | .vList _ => true
  | .vObj _ => true
  | .vStr _ => true
  | _ => false

/-- Python `type(value).__name__` for error messages. -/
def typeName : PyVal → String
  | .vNone => "NoneType"
  | .vBool _ => "bool"
  | .vInt _ => "int"
  | .vFloat _ => "float"
  | .vStr _ => "str"
  | .vERange _ => "E_RANGE"
  | .vIRange _ => "I_RANGE"
  | .vBandwidth _ => "BANDWIDTH"
  | .vList _ => "list"
  | .vObj _ => "dict"

end PyVal

/-- Numeric data range (`biologic.params.DataRange`): optional bounds,
each independently strict or inclusive. -/
structure DataRange where
  min_value : Option ℚ
  max_value : Option ℚ
  min_strict : Bool := false
  max_strict : Bool := false
deriving DecidableEq

namespace DataRange

/-- Translation of `DataRange._compare_lower_bound`.  Returns the code's
1 / 0 / -1 verdict, or a `TypeError` when Python would raise comparing a
non-numeric value against a present bound. -/
def compareLowerBound (r : DataRange) (value : PyVal) : Except PyExc Int :=
  if value.isNone then
    .ok (if r.min_value = none then 0 else 1)
  else
    match r.min_value with
    | none => .ok (-1)
    | some m =>
      match value.toRat with
      | none => .error .typeError
      | some q =>
        if m < q then .ok (-1)
        else if !r.min_strict && m = q then .ok 0
        else .ok 1

/-- Translation of `DataRange._compare_upper_bound`. -/
def compareUpperBound (r : DataRange) (value : PyVal) : Except PyExc Int :=
  if value.isNone then
    .ok (if r.max_value = none then 0 else 1)
  else
    match r.max_value with
    | none => .ok (-1)
    | some m =>
      match value.toRat with
      | none => .error .typeError
      | some q =>
        if q < m then .ok (-1)
        else if !r.max_strict && m = q then .ok 0
        else .ok 1

/-- Translation of `DataRange.__contains__`; Python's `and` short-circuits,
so the upper bound is not consulted when the lower check already fails. -/
def containsVal (r : DataRange) (value : PyVal) : Except PyExc Bool := do
  let lo ← r.compareLowerBound value
  if lo ≤ 0 then
    let hi ← r.compareUpperBound value
    .ok (hi ≤ 0)
  else
    .ok false

/-- Rendering of the range used in error messages (`DataRange.__str__`),
kept abstract on the numeric bound text. -/
def str (r : DataRange) : String :=
  match r.min_value, r.max_value with
  | none, none => "(..)"
  | some _, none => if r.min_strict then "> min" else ">= min"
  | none, some _ => if r.max_strict then "< max" else "<= max"
  | some _, some _ =>
    (if r.min_strict then "(" else "[") ++ "min..max" ++
      (if r.max_strict then ")" else "]")

end DataRange

/-- Translation of `biologic.params.validate_type` at a given expected
category: `None` result means the check passed. -/
def validate_type (value : PyVal) (name : String) (typeOk : PyVal → Bool)
    (typeNameStr : String) : Option ValidationError :=
  if typeOk value then none
  else some ⟨name, "incorrect type, value must be of type " ++ typeNameStr ++
    " but " ++ value.typeName ++ " was given instead"⟩

/-- Translation of `biologic.params.validate_data_range`; propagates the
`TypeError` Python raises when the value cannot be compared to a bound. -/
def validate_data_range (value : PyVal) (name : String) (r : DataRange) :
    Except PyExc (Option ValidationError) := do
  let c ← r.containsVal value
  if c then .ok none
  else .ok (some ⟨name, "value not in range: " ++ r.str⟩)

/-- Translation of `biologic.params.validate_len` for list values (the
only values it is applied to in the code modelled here). -/
def validate_len (value : List PyVal) (name : String) (requiredLen : Nat) :
    Option ValidationError :=
  if value.length = requiredLen then none
  else some ⟨name, "value must contain exactly " ++ toString requiredLen ++
    " elements"⟩

/-! ### CV technique parameter schema (`biologic.biologic.techniques.cv`) -/

/-- One CV scan step (`CVStep`).  Field values stay dynamically typed so
that mistyped parameter values can be expressed. -/
structure CVStep where
  voltage : PyVal
  scan_rate : PyVal
  vs_initial : PyVal

/-- Translation of `CVStep.to_json`. -/
def CVStep.to_json (s : CVStep) : PyVal :=
  .vObj [("voltage", s.voltage), ("scan_rate", s.scan_rate),
    ("vs_initial", s.vs_initial)]

/-- Lookup of a key in a structured-form mapping (Python `json[name]`),
`none` when the access would raise `KeyError`. -/
def lookupJson (j : List (String × PyVal)) (k : String) : Option PyVal :=
  (j.find? (fun kv => kv.1 == k)).map (·.2)

/-- Translation of `CVStep.from_json`; any failure (value not a mapping,
missing key) stands for the exception Python would raise. -/
def CVStep.from_json (v : PyVal) : Except PyExc CVStep :=
  match v with
  | .vObj l =>
    match lookupJson l "voltage", lookupJson l "scan_rate",
        lookupJson l "vs_initial" with
    | some a, some b, some c => .ok ⟨a, b, c⟩
    | _, _, _ => .error .typeError
  | _ => .error .typeError

/-- Configured CV parameter values (`CVParams` dataclass instance):
the declared non-derived fields, dynamically typed.  `scan_number` is
declared with `create_field=False` and no property, so an instance
carries no such attribute and its default (2) is used when packing. -/
structure CVParams where
  E_range : PyVal
  I_range : PyVal
  bandwidth : PyVal
  record_every_dE : PyVal
  average_over_dE : PyVal
  n_cycles : PyVal
  begin_measuring_i : PyVal
  end_measuring_i : PyVal
  Ei : CVStep
  E1 : CVStep
  E2 : CVStep
  Ef : CVStep

namespace CVParams

/-- Translation of `CVParams._step_sequence`: the 5-entry scan order
(Ei, E1, E2, Ei, Ef) built from the 4 configured steps. -/
def step_sequence (p : CVParams) : List CVStep :=
  [p.Ei, p.E1, p.E2, p.Ei, p.Ef]

/-- Derived read-only parameter `vs_initial`: per-step projection of the
step sequence, recomputed on every access. -/
def vs_initial (p : CVParams) : List PyVal :=
  p.step_sequence.map (·.vs_initial)

/-- Derived read-only parameter `voltage_step`. -/
def voltage_step (p : CVParams) : List PyVal :=
  p.step_sequence.map (·.voltage)

/-- Derived read-only parameter `scan_rate`. -/
def scan_rate (p : CVParams) : List PyVal :=
  p.step_sequence.map (·.scan_rate)

end CVParams

/-- Data range `DataRange(0, None)` used by `record_every_dE`,
`n_cycles` and the derived `scan_rate` parameter. -/
def rangeNonNeg : DataRange := { min_value := some 0, max_value := none }

/-- Data range `DataRange(0, 1)` used by `begin_measuring_I` and
`end_measuring_I`. -/
def rangeUnit : DataRange := { min_value := some 0, max_value := some 1 }

/-- The technique-specific eagerly-built test list of `CVParams.validate`
(source lines 139-156), in source order: three length checks on the
derived arrays, per-element type checks for the five derived entries,
then scalar type checks. -/
def cvTests (p : CVParams) : List (Option ValidationError) :=
  [ validate_len p.vs_initial "vs_initial" 5,
    validate_len p.voltage_step "voltage_step" 5,
    validate_len p.scan_rate "scan_rate" 5,
    validate_type (p.vs_initial.getD 0 .vNone) "vs_initial[0]" PyVal.isBool "bool",
    validate_type (p.voltage_step.getD 0 .vNone) "voltage_step[0]" PyVal.isNumber "Number",
    validate_type (p.scan_rate.getD 0 .vNone) "scan_rate[0]" PyVal.isNumber "Number",
    validate_type (p.vs_initial.getD 1 .vNone) "vs_initial[1]" PyVal.isBool "bool",
    validate_type (p.voltage_step.getD 1 .vNone) "voltage_step[1]" PyVal.isNumber "Number",
    validate_type (p.scan_rate.getD 1 .vNone) "scan_rate[1]" PyVal.isNumber "Number",
    validate_type (p.vs_initial.getD 2 .vNone) "vs_initial[2]" PyVal.isBool "bool",
    validate_type (p.voltage_step.getD 2 .vNone) "voltage_step[2]" PyVal.isNumber "Number",
    validate_type (p.scan_rate.getD 2 .vNone) "scan_rate[2]" PyVal.isNumber "Number",
    validate_type (p.vs_initial.getD 3 .vNone) "vs_initial[3]" PyVal.isBool "bool",
    validate_type (p.voltage_step.getD 3 .vNone) "voltage_step[3]" PyVal.isNumber "Number",
    validate_type (p.scan_rate.getD 3 .vNone) "scan_rate[3]" PyVal.isNumber "Number",
    validate_type (p.vs_initial.getD 4 .vNone) "vs_initial[4]" PyVal.isBool "bool",
    validate_type (p.voltage_step.getD 4 .vNone) "voltage_step[4]" PyVal.isNumber "Number",
    validate_type (p.scan_rate.getD 4 .vNone) "scan_rate[4]" PyVal.isNumber "Number",
    validate_type p.record_every_dE "record_every_dE" PyVal.isNumber "Number",
    validate_type p.average_over_dE "average_over_dE" PyVal.isBool "bool",
    validate_type p.n_cycles "n_cycles" PyVal.isNumber "Number",
    validate_type p.begin_measuring_i "begin_measuring_i" PyVal.isNumber "Number",
    validate_type p.end_measuring_i "end_measuring_i" PyVal.isNumber "Number" ]

/-- Per-element range checks for an iterated value, with indexed names
(`name[idx]`), stopping at the first element whose comparison raises
(`TechniqueParams.validate`, array branch). -/
def rangeTestsElems (name : String) (r : DataRange) :
    Nat → List PyVal → Except PyExc (List (Option ValidationError))
  | _, [] => .ok []
  | idx, x :: rest => do
    let e ← validate_data_range x (name ++ "[" ++ toString idx ++ "]") r
    let es ← rangeTestsElems name r (idx + 1) rest
    .ok (e :: es)

/-- Range check dispatch of `TechniqueParams.validate`: iterable values
(lists, strings — a Python `str` is `Iterable` and yields its one-char
substrings — and dicts, which yield their keys) are checked per element;
all other values are checked as scalars. -/
def rangeTests (value : PyVal) (name : String) (r : DataRange) :
    Except PyExc (List (Option ValidationError)) :=
  match value with
  | .vList xs => rangeTestsElems name r 0 xs
  | .vStr s => rangeTestsElems name r 0
      (s.data.map (fun c => PyVal.vStr (String.singleton c)))
  | .vObj fields => rangeTestsElems name r 0
      (fields.map (fun kv => PyVal.vStr kv.1))
  | v => (validate_data_range v name r).map (fun e => [e])

/-- The eagerly-built test list of the base `TechniqueParams.validate`:
three hardware-parameter type checks, then one range check per declared
parameter carrying a `data_range`, in registry order (`record_every_dE`,
`n_cycles`, `begin_measuring_I`, `end_measuring_I`, then the derived
`scan_rate`).  If building any range check raises, the whole list is
abandoned (`Except.error`) before anything is yielded. -/
def baseTests (p : CVParams) : Except PyExc (List (Option ValidationError)) := do
  let r1 ← rangeTests p.record_every_dE "record_every_dE" rangeNonNeg
  let r2 ← rangeTests p.n_cycles "n_cycles" rangeNonNeg
  let r3 ← rangeTests p.begin_measuring_i "begin_measuring_i" rangeUnit
  let r4 ← rangeTests p.end_measuring_i "end_measuring_i" rangeUnit
  let r5 ← rangeTests (.vList p.scan_rate) "scan_rate" rangeNonNeg
  .ok ([ validate_type p.E_range "E_range" PyVal.isERange "E_RANGE",
    validate_type p.I_range "I_range" PyVal.isIRange "I_RANGE",
    validate_type p.bandwidth "bandwidth" PyVal.isBandwidth "BANDWIDTH" ]
    ++ r1 ++ r2 ++ r3 ++ r4 ++ r5)

/-- Full consumption of the `CVParams.validate` generator: the pair of
every yielded `ValidationError` and the exception, if any, that escapes
while consuming.  The CV-specific tests are yielded first; the base
class tests are built eagerly afterwards, so an exception raised while
building them discards all base-class errors. -/
def CVParams.validate (_device_info : DeviceInfo) (p : CVParams) :
    List ValidationError × Option PyExc :=
  let cvErrs := (cvTests p).filterMap id
  match baseTests p with
  | .ok ts => (cvErrs ++ ts.filterMap id, none)
  | .error e => (cvErrs, some e)

/-! ### Portable structured form for CVParams -/

/-- One field of the structured form, dropped when the serialized value
is `None` (`TechniqueParams.to_json`). -/
def jsonField (name : String) (v : PyVal) : List (String × PyVal) :=
  if v.isNone then [] else [(name, v)]

/-- The `to_json` converter of the enum-valued hardware parameters
(`lambda o: o.name`); raises when the value is not the enum. -/
def enumNameJson (getName : PyVal → Option String) (v : PyVal) :
    Except PyExc PyVal :=
  match getName v with
  | some s => .ok (.vStr s)
  | none => .error .typeError

/-- Name of an `E_RANGE`-valued `PyVal`. -/
def eRangeName : PyVal → Option String
  | .vERange e => some e.toName
  | _ => none

/-- Name of an `I_RANGE`-valued `PyVal`. -/
def iRangeName : PyVal → Option String
  | .vIRange i => some i.toName
  | _ => none

/-- Name of a `BANDWIDTH`-valued `PyVal`. -/
def bandwidthName : PyVal → Option String
  | .vBandwidth bw => some bw.toName
  | _ => none

/-- Translation of `TechniqueParams.to_json` for `CVParams`: iterates the
declared parameters in registry order, skipping `create_field=False`
parameters (`scan_number` and the derived arrays), applying per-field
serializers and dropping `None`-serialized values. -/
def CVParams.to_json (p : CVParams) : Except PyExc (List (String × PyVal)) := do
  let e ← enumNameJson eRangeName p.E_range
  let i ← enumNameJson iRangeName p.I_range
  let b ← enumNameJson bandwidthName p.bandwidth
  .ok (jsonField "E_range" e ++ jsonField "I_range" i ++
    jsonField "bandwidth" b ++
    jsonField "record_every_dE" p.record_every_dE ++
    jsonField "average_over_dE" p.average_over_dE ++
    jsonField "n_cycles" p.n_cycles ++
    jsonField "begin_measuring_i" p.begin_measuring_i ++
    jsonField "end_measuring_i" p.end_measuring_i ++
    jsonField "Ei" p.Ei.to_json ++ jsonField "E1" p.E1.to_json ++
    jsonField "E2" p.E2.to_json ++ jsonField "Ef" p.Ef.to_json)

/-- A `from_json` converter failure is wrapped in
`ValueError(f"invalid value for {name}: ...")` (`TechniqueParams.from_json`). -/
def convError (name : String) : PyExc :=
  .valueError ("invalid value for " ++ name)

/-- Apply an enum name-lookup `from_json` converter to a structured value. -/
def enumFromJson (fromName : String → Option PyVal) (name : String)
    (v : PyVal) : Except PyExc PyVal :=
  match v with
  | .vStr s =>
    match fromName s with
    | some e => .ok e
    | none => .error (convError name)
  | _ => .error (convError name)

/-- `E_RANGE[s]` as a `PyVal` result. -/
def eRangeOfName (s : String) : Option PyVal :=
  (E_RANGE.fromName s).map .vERange

/-- `I_RANGE[s]` as a `PyVal` result. -/
def iRangeOfName (s : String) : Option PyVal :=
  (I_RANGE.fromName s).map .vIRange

/-- `BANDWIDTH[s]` as a `PyVal` result. -/
def bandwidthOfName (s : String) : Option PyVal :=
  (BANDWIDTH.fromName s).map .vBandwidth

/-- Apply the `CVStep.from_json` converter, wrapping failures. -/
def stepFromJson (name : String) (v : PyVal) : Except PyExc CVStep :=
  match CVStep.from_json v with
  | .ok s => .ok s
  | .error _ => .error (convError name)

/-- Translation of `TechniqueParams.from_json` for `CVParams`: for every
declared parameter (including `create_field=False` ones) look up its key,
skipping absent keys; apply `from_json` converters, wrapping a converter
failure as `ValueError`; then construct the dataclass, which fails
(`TypeError`) when a required field is missing or a field-less parameter
key was supplied. -/
def CVParams.from_json (j : List (String × PyVal)) : Except PyExc CVParams := do
  let e ← match lookupJson j "E_range" with
    | none => pure (PyVal.vERange .E_RANGE_AUTO)
    | some v => enumFromJson eRangeOfName "E_range" v
  let i ← match lookupJson j "I_range" with
    | none => pure (PyVal.vIRange .I_RANGE_AUTO)
    | some v => enumFromJson iRangeOfName "I_range" v
  let b ← match lookupJson j "bandwidth" with
    | none => pure (PyVal.vBandwidth .BW_KEEP)
    | some v => enumFromJson bandwidthOfName "bandwidth" v
  let ei ← match lookupJson j "Ei" with
    | none => Except.error .typeError
    | some v => stepFromJson "Ei" v
  let e1 ← match lookupJson j "E1" with
    | none => Except.error .typeError
    | some v => stepFromJson "E1" v
  let e2 ← match lookupJson j "E2" with
    | none => Except.error .typeError
    | some v => stepFromJson "E2" v
  let ef ← match lookupJson j "Ef" with
    | none => Except.error .typeError
    | some v => stepFromJson "Ef" v
  if (lookupJson j "scan_number").isSome ∨ (lookupJson j "vs_initial").isSome
      ∨ (lookupJson j "voltage_step").isSome
      ∨ (lookupJson j "scan_rate").isSome then
    Except.error .typeError
  else
    match lookupJson j "record_every_dE", lookupJson j "average_over_dE",
        lookupJson j "n_cycles", lookupJson j "begin_measuring_i",
        lookupJson j "end_measuring_i" with
    | some rde, some avg, some nc, some bm, some em =>
      .ok ⟨e, i, b, rde, avg, nc, bm, em, ei, e1, e2, ef⟩
    | _, _, _, _, _ => Except.error .typeError

/-! ### Specification-side mirror of the CV validation constraints

The following definitions are written from the specification's words
(§4.1, §8): the declared type constraint and range constraint of each
parameter, with array-valued parameters treated per scalar element.
They are compared against the source-derived `CVParams.validate` above. -/

/-- Specification-side membership in a numeric range: the value has
numeric content satisfying both bound conditions (inclusive or exclusive
per bound); `None` belongs only to the unbounded range. -/
def specInRange (v : PyVal) (r : DataRange) : Bool :=
  match v.toRat with
  | some q =>
    (match r.min_value with
     | none => true
     | some m => if r.min_strict then decide (m < q) else decide (m ≤ q)) &&
    (match r.max_value with
     | none => true
     | some m => if r.max_strict then decide (q < m) else decide (q ≤ m))
  | none => v.isNone && r.min_value = none && r.max_value = none

/-- A value that the range comparison is defined on: numeric or `None`. -/
def rangeComparable (v : PyVal) : Bool :=
  v.isNumber || v.isNone

/-- All range-checked CV parameter values (the four range-carrying
scalars and the five derived scan-rate entries) are comparable. -/
def RangeComparableCV (p : CVParams) : Prop :=
  rangeComparable p.record_every_dE = true ∧
  rangeComparable p.n_cycles = true ∧
  rangeComparable p.begin_measuring_i = true ∧
  rangeComparable p.end_measuring_i = true ∧
  rangeComparable p.Ei.scan_rate = true ∧
  rangeComparable p.E1.scan_rate = true ∧
  rangeComparable p.E2.scan_rate = true ∧
  rangeComparable p.Ef.scan_rate = true

/-- Specification-side checklist: one `(field name, constraint holds)`
pair per declared constraint of the CV schema, in the order the source
evaluates them.  Array-valued parameters contribute one entry per scalar
element, each a distinct field name. -/
def specChecklist (p : CVParams) : List (String × Bool) :=
  [ ("vs_initial", p.vs_initial.length == 5),
    ("voltage_step", p.voltage_step.length == 5),
    ("scan_rate", p.scan_rate.length == 5),
    ("vs_initial[0]", (p.vs_initial.getD 0 .vNone).isBool),
    ("voltage_step[0]", (p.voltage_step.getD 0 .vNone).isNumber),
    ("scan_rate[0]", (p.scan_rate.getD 0 .vNone).isNumber),
    ("vs_initial[1]", (p.vs_initial.getD 1 .vNone).isBool),
    ("voltage_step[1]", (p.voltage_step.getD 1 .vNone).isNumber),
    ("scan_rate[1]", (p.scan_rate.getD 1 .vNone).isNumber),
    ("vs_initial[2]", (p.vs_initial.getD 2 .vNone).isBool),
    ("voltage_step[2]", (p.voltage_step.getD 2 .vNone).isNumber),
    ("scan_rate[2]", (p.scan_rate.getD 2 .vNone).isNumber),
    ("vs_initial[3]", (p.vs_initial.getD 3 .vNone).isBool),
    ("voltage_step[3]", (p.voltage_step.getD 3 .vNone).isNumber),
    ("scan_rate[3]", (p.scan_rate.getD 3 .vNone).isNumber),
    ("vs_initial[4]", (p.vs_initial.getD 4 .vNone).isBool),
    ("voltage_step[4]", (p.voltage_step.getD 4 .vNone).isNumber),
    ("scan_rate[4]", (p.scan_rate.getD 4 .vNone).isNumber),
    ("record_every_dE", p.record_every_dE.isNumber),
    ("average_over_dE", p.average_over_dE.isBool),
    ("n_cycles", p.n_cycles.isNumber),
    ("begin_measuring_i", p.begin_measuring_i.isNumber),
    ("end_measuring_i", p.end_measuring_i.isNumber),
    ("E_range", p.E_range.isERange),
    ("I_range", p.I_range.isIRange),
    ("bandwidth", p.bandwidth.isBandwidth),
    ("record_every_dE", specInRange p.record_every_dE rangeNonNeg),
    ("n_cycles", specInRange p.n_cycles rangeNonNeg),
    ("begin_measuring_i", specInRange p.begin_measuring_i rangeUnit),
    ("end_measuring_i", specInRange p.end_measuring_i rangeUnit),
    ("scan_rate[0]", specInRange (p.scan_rate.getD 0 .vNone) rangeNonNeg),
    ("scan_rate[1]", specInRange (p.scan_rate.getD 1 .vNone) rangeNonNeg),
    ("scan_rate[2]", specInRange (p.scan_rate.getD 2 .vNone) rangeNonNeg),
    ("scan_rate[3]", specInRange (p.scan_rate.getD 3 .vNone) rangeNonNeg),
    ("scan_rate[4]", specInRange (p.scan_rate.getD 4 .vNone) rangeNonNeg) ]

/-- Names of the violated fields, one entry per violated constraint. -/
def specViolated (p : CVParams) : List String :=
  ((specChecklist p).filter (fun c => !c.2)).map (·.1)

/-! ### Channel state machine (`biologic.channel.Channel`) -/

/-- Lifecycle of the channel's raw-frame generator in the sequential
model: suspended at a `yield`, or terminated after an exception. -/
inductive GenLife
  | suspended
  | terminated
deriving DecidableEq

/-- Driver commands issued by the channel (`LoadTechnique`,
`StartChannel`, `StopChannel`). -/
inductive HwEvent
  | load (idx : Nat) (first : Bool) (last : Bool)
  | start
  | stopChannel
deriving DecidableEq

/-- Channel limits snapshot consulted by `Channel._check_limits`
(`ChannelInfo`); ranges and bandwidth carried as their numeric codes. -/
structure ChannelInfo where
  kernelLoaded : Bool
  min_I_range : Int
  max_I_range : Int
  max_bandwidth : Int
deriving DecidableEq

/-- One raw frame batch (`BLData`): instrument state, technique identity
tag and the unpacked integer rows. -/
structure Frame where
  prog_state : PROG_STATE
  tech_id : TECH_ID
  tech_index : Nat
  rows : List (List Int)

/-- A technique as the channel and runner consume it
(`biologic.technique.Technique`): identifier, validation outcome against
the connected device, device-support verdict, the hardware settings
checked against channel limits, and the unpacking routine from one raw
frame to typed records (records kept abstract as integer rows; the
optional exception models `unpack_data` raising after its yields). -/
structure Technique where
  tech_id : TECH_ID
  errors : List ValidationError
  supported : Bool
  iRangeVal : Int
  bandwidthVal : Int
  unpack : Frame → List (List Int) × Option PyExc

/-- The per-channel state: plugged flag, instrument-reported program
state, pump generator, active-runner reference and limits snapshot. -/
structure Channel where
  plugged : Bool
  hwState : PROG_STATE
  gen : Option GenLife
  runnerSet : Bool
  info : ChannelInfo

/-- Translation of `Channel._close_gen`: throwing `ChannelStopped` into
the generator.  The generator body (`_get_data`) does not catch it, so
Python re-raises it at the caller of `throw`; only `StopIteration` is
caught, hence the exception escapes `_close_gen` and the statements
after the `throw` never run.  With no generator the method returns
immediately. -/
def closeGen (g : Option GenLife) : Option GenLife × Option PyExc :=
  match g with
  | none => (none, none)
  | some _ => (some .terminated, some .channelStopped)

/-- Translation of `Channel.stop`: no-op when the instrument already
reports `STOP`; otherwise close the generator (which may raise, see
`closeGen`), then issue `StopChannel` and clear the generator and runner
references.  The driver is modelled as moving the channel to `STOP`
when `StopChannel` is issued. -/
def Channel.stop (c : Channel) : Channel × List HwEvent × Option PyExc :=
  if c.hwState = .STOP then (c, [], none)
  else
    match closeGen c.gen with
    | (g, some e) => ({ c with gen := g }, [], some e)
    | (_, none) =>
      ({ c with gen := none, runnerSet := false, hwState := .STOP },
        [.stopChannel], none)

/-- Translation of `Channel._load_technique` applied along the sequence
(`Channel._load_techniques`): each technique is validated immediately
before it is loaded; a non-empty error list raises an `ExceptionGroup`
carrying only that technique's errors, and no further technique is
loaded.  `n` is the total count used for the first/last flags. -/
def loadTechniquesGo (n : Nat) : Nat → List Technique →
    List HwEvent × Option PyExc
  | _, [] => ([], none)
  | idx, t :: rest =>
    if t.errors = [] then
      let r := loadTechniquesGo n (idx + 1) rest
      (.load idx (idx == 0) (idx == n - 1) :: r.1, r.2)
    else
      ([], some (.exceptionGroup "technique parameters failed validation"
        t.errors))

/-- Translation of `Channel._load_techniques`. -/
def loadTechniques (techs : List Technique) : List HwEvent × Option PyExc :=
  loadTechniquesGo techs.length 0 techs

/-- First limit violation of one technique (`Channel._check_limits`,
per-technique checks in source order). -/
def techLimitError (info : ChannelInfo) (t : Technique) : Option PyExc :=
  if info.max_I_range < t.iRangeVal then
    some (.valueError "channel can't support I_range: above max I_range")
  else if t.iRangeVal < info.min_I_range then
    some (.valueError "channel can't support I_range: below min I_range")
  else if info.max_bandwidth < t.bandwidthVal then
    some (.valueError "channel can't support bandwidth: above max bandwidth")
  else none

/-- Translation of `Channel._check_limits`. -/
def checkLimits (info : ChannelInfo) (techs : List Technique) : Option PyExc :=
  if !info.kernelLoaded then
    some (.runtimeError "kernel must be loaded before any techniques can run")
  else if info.max_I_range < info.min_I_range then
    some (.valueError "invalid I_range limits")
  else (techs.filterMap (techLimitError info)).head?

/-- Translation of `Channel.run_techniques`: precondition checks
(plugged, idle, device support), limit checks, sequential validate+load,
then `StartChannel` and installation of a fresh pump generator and
runner. -/
def Channel.run_techniques (c : Channel) (techs : List Technique) :
    Channel × List HwEvent × Option PyExc :=
  if !c.plugged then (c, [], some (.runtimeError "channel is not connected"))
  else if c.hwState ≠ .STOP then
    (c, [], some (.runtimeError "channel is busy"))
  else if !(techs.filter (fun t => !t.supported)).isEmpty then
    (c, [], some (.valueError "device does not support technique"))
  else
    match checkLimits c.info techs with
    | some e => (c, [], some e)
    | none =>
      match loadTechniques techs with
      | (evs, some e) => (c, evs, some e)
      | (evs, none) =>
        ({ c with hwState := .RUN, gen := some .suspended, runnerSet := true },
          evs ++ [.start], none)

/-! ### Technique runner (`biologic.runner.TechniqueRunner`) -/

/-- One outcome of pulling the channel's raw-frame generator. -/
inductive GenEvent
  | frame (f : Frame)
  | raiseExc (e : PyExc)

/-- One item the runner sequence yields: the `Paused` signal, the
`DataWait` signal, or an `IndexData` record tagged with its technique
index. -/
inductive YieldItem
  | paused
  | dataWait
  | indexData (tech_index : Nat) (data : List Int)
deriving DecidableEq

/-- How iteration of the runner ends for the consumer. -/
inductive RunOutcome
  | completed
  | raised (e : PyExc)
  | exhausted
deriving DecidableEq

/-- Result of fully driving `TechniqueRunner._iter_data`: yielded items,
the captured error (the `exception` accessor), the last observed
instrument state, whether the stop timestamp was recorded, the terminal
outcome seen by the consumer, and how many frames were logged-and-skipped. -/
structure RunnerResult where
  yields : List YieldItem
  error : Option PyExc
  lastState : Option PROG_STATE
  stopTimeSet : Bool
  outcome : RunOutcome
  warnings : Nat
deriving DecidableEq

/-- Prefix one yielded item onto a runner result. -/
def RunnerResult.prepend (y : YieldItem) (r : RunnerResult) : RunnerResult :=
  { r with yields := y :: r.yields }

/-- Prefix several yielded items onto a runner result. -/
def RunnerResult.prependAll (ys : List YieldItem) (r : RunnerResult) :
    RunnerResult :=
  { r with yields := ys ++ r.yields }

/-- Record one logged warning on a runner result. -/
def RunnerResult.addWarning (r : RunnerResult) : RunnerResult :=
  { r with warnings := r.warnings + 1 }

/-- Translation of `TechniqueRunner._iter_data` driven over a script of
generator outcomes.  `chanActive` is whether `Channel.is_active(runner)`
holds when the error path calls `self.stop()`: in that case
`Channel.stop` raises `ChannelStopped` out of `_close_gen` (see
`closeGen`), which replaces the original exception for the consumer. -/
def TechniqueRunner.iter_data (techs : List Technique) (chanActive : Bool) :
    List GenEvent → Option PROG_STATE → RunnerResult
  | [], ls => ⟨[], none, ls, false, .exhausted, 0⟩
  | .raiseExc e :: _, ls =>
    ⟨[], some e, ls, true,
      .raised (if chanActive then .channelStopped else e), 0⟩
  | .frame f :: rest, _ =>
    let ls := some f.prog_state
    if f.tech_id ≠ .NONE then
      match techs[f.tech_index]? with
      | none => (TechniqueRunner.iter_data techs chanActive rest ls).addWarning
      | some t =>
        if f.tech_id ≠ t.tech_id then
          (TechniqueRunner.iter_data techs chanActive rest ls).addWarning
        else
          match t.unpack f with
          | (rows, none) =>
            (TechniqueRunner.iter_data techs chanActive rest ls).prependAll
              (rows.map (.indexData f.tech_index ·))
          | (rows, some e) =>
            ⟨rows.map (.indexData f.tech_index ·), some e, ls, true,
              .raised (if chanActive then .channelStopped else e), 0⟩
    else if f.prog_state = .STOP then ⟨[], none, ls, true, .completed, 0⟩
    else if f.prog_state = .PAUSE then
      (TechniqueRunner.iter_data techs chanActive rest ls).prepend .paused
    else
      (TechniqueRunner.iter_data techs chanActive rest ls).prepend .dataWait

/-- Run status of a technique (`biologic.runner.RunState`). -/
inductive RunState
  | Init
  | Running
  | Paused
  | Complete
  | Error
  | Unknown
deriving DecidableEq

/-- The string value of a `RunState` member. -/
def RunState.value : RunState → String
  | .Init => "INIT"
  | .Running => "RUNNING"
  | .Paused => "PAUSED"
  | .Complete => "COMPLETE"
  | .Error => "ERROR"
  | .Unknown => "UNKNOWN"

/-- Translation of the `TechniqueRunner.state` accessor from the captured
error and last observed instrument state. -/
def TechniqueRunner.state (error : Option PyExc)
    (lastState : Option PROG_STATE) : RunState :=
  if error.isSome then .Error
  else
    match lastState with
    | none => .Init
    | some .RUN => .Running
    | some .PAUSE => .Paused
    | some .STOP => .Complete
    | some .SYNC => .Unknown

/-- The `status` string `TechniqueRunner.get_metadata` stores:
`self.state.value`. -/
def metadataStatus (error : Option PyExc) (lastState : Option PROG_STATE) :
    String :=
  (TechniqueRunner.state error lastState).value

/-! ### Wire framing (`biologic_host.py` / `biologic_client.py`) -/

/-- `struct.pack("!I", n)`: the 4-byte big-endian encoding of a length. -/
def be32 (n : Nat) : List Nat :=
  [n / 2 ^ 24 % 256, n / 2 ^ 16 % 256, n / 2 ^ 8 % 256, n % 256]

/-- `struct.unpack("!I", header)` on a 4-byte header. -/
def be32decode : List Nat → Nat
  | [a, b, c, d] => ((a * 256 + b) * 256 + c) * 256 + d
  | _ => 0

/-- Translation of `send_msg`: the byte sequence written to the socket,
a 4-byte big-endian length prefix followed by the serialized body. -/
def send_msg {μ : Type} (ser : μ → List Nat) (m : μ) : List Nat :=
  be32 (ser m).length ++ ser m

/-- Translation of `recv_exact`: exactly `n` bytes plus the remainder, or
`none` when the stream closes before delivering them. -/
def recv_exact (s : List Nat) (n : Nat) : Option (List Nat × List Nat) :=
  if s.length < n then none else some (s.take n, s.drop n)

/-- Translation of `recv_msg`: read the 4-byte header, then the body, and
deserialize; a short read at either step yields the distinguished
closed-connection result `none`. -/
def recv_msg {μ : Type} (deser : List Nat → μ) (s : List Nat) : Option μ := do
  let (header, rest) ← recv_exact s 4
  let (payload, _) ← recv_exact rest (be32decode header)
  some (deser payload)

/-! ### Job server worker (`biologic_host.py`) -/

/-- `MAX_CHANNELS` in `biologic_host.py`. -/
def MAX_CHANNELS : Int := 4

/-- Whether `channel_id in channel_locks` holds: the lock table is built
for channels `1 .. MAX_CHANNELS`. -/
def channelHasLock (c : Int) : Bool :=
  1 ≤ c && c ≤ MAX_CHANNELS

/-- Server-side connection state: the USB port of the single open
instrument connection, if any. -/
structure HostState where
  currentPort : Option String
deriving DecidableEq

/-- One client job: target port, channel number (already through
`int(...)`) and technique list. -/
structure Job where
  usb_port : String
  channel : Int
  techniques : List Technique

/-- Device-side actions a worker can perform. -/
inductive DevEvent
  | closeConn (port : String)
  | openConn (port : String)
  | getChannel (n : Int)
  | hw (e : HwEvent)
deriving DecidableEq

/-- Messages framed back to the client. -/
inductive WireMsg
  | dataMsg (channel : Int) (payload : YieldItem)
  | doneMsg (channel : Int)
  | errorMsg (error : String)
deriving DecidableEq

/-- Python `str(e)` for the modelled exceptions. -/
def PyExc.str : PyExc → String
  | .typeError => "TypeError"
  | .valueError m => m
  | .runtimeError m => m
  | .channelStopped => "channel was stopped"
  | .exceptionGroup m _ => m
  | .unpackDataError m => m

/-- Translation of `handle_client_job` for one received job: channel
validation, connection management under the global lock, then
`run_techniques` and the streaming loop under the channel lock.
`genEvents` scripts the raw-frame generator of the started run. -/
def handle_client_job (st : HostState) (chan : Channel) (job : Job)
    (genEvents : List GenEvent) : HostState × List DevEvent × List WireMsg :=
  if !channelHasLock job.channel then
    (st, [], [.errorMsg ("Invalid channel " ++ toString job.channel)])
  else
    let conn : HostState × List DevEvent :=
      if st.currentPort = some job.usb_port then (st, [])
      else
        (⟨some job.usb_port⟩,
          (match st.currentPort with
           | some p => [.closeConn p]
           | none => []) ++ [.openConn job.usb_port])
    match chan.run_techniques job.techniques with
    | (_, hwEvs, some e) =>
      (conn.1, conn.2 ++ [.getChannel job.channel] ++ hwEvs.map .hw,
        [.errorMsg e.str])
    | (_, hwEvs, none) =>
      let r := TechniqueRunner.iter_data job.techniques true genEvents none
      let devEvs := conn.2 ++ [.getChannel job.channel] ++ hwEvs.map .hw
      let dataMsgs := r.yields.map (.dataMsg job.channel ·)
      match r.outcome with
      | .completed => (conn.1, devEvs, dataMsgs ++ [.doneMsg job.channel])
      | .raised e => (conn.1, devEvs, dataMsgs ++ [.errorMsg e.str])
      | .exhausted => (conn.1, devEvs, dataMsgs)

/-! ### Bridge between the validation pipeline and the spec checklist -/

/-- One evaluated constraint check: field name, verdict and message. -/
structure Check where
  name : String
  passed : Bool
  message : String

/-- The yielded error of one evaluated check, `none` when it passed. -/
def Check.toOption (c : Check) : Option ValidationError :=
  if c.passed then none else some ⟨c.name, c.message⟩

/-- Message of a failed type check. -/
def typeMsg (typeNameStr : String) (v : PyVal) : String :=
  "incorrect type, value must be of type " ++ typeNameStr ++
    " but " ++ v.typeName ++ " was given instead"

/-- Message of a failed range check. -/
def rangeMsg (r : DataRange) : String :=
  "value not in range: " ++ r.str

/-- Message of a failed length check. -/
def lenMsg (requiredLen : Nat) : String :=
  "value must contain exactly " ++ toString requiredLen ++ " elements"

/-- The full sequence of checks `CVParams.validate` evaluates, as
name/verdict/message triples, in evaluation order.  The verdicts are the
specification-side constraints of `specChecklist`. -/
def cvChecks (p : CVParams) : List Check :=
  [ ⟨"vs_initial", p.vs_initial.length == 5, lenMsg 5⟩,
    ⟨"voltage_step", p.voltage_step.length == 5, lenMsg 5⟩,
    ⟨"scan_rate", p.scan_rate.length == 5, lenMsg 5⟩,
    ⟨"vs_initial[0]", (p.vs_initial.getD 0 .vNone).isBool,
      typeMsg "bool" (p.vs_initial.getD 0 .vNone)⟩,
    ⟨"voltage_step[0]", (p.voltage_step.getD 0 .vNone).isNumber,
      typeMsg "Number" (p.voltage_step.getD 0 .vNone)⟩,
    ⟨"scan_rate[0]", (p.scan_rate.getD 0 .vNone).isNumber,
      typeMsg "Number" (p.scan_rate.getD 0 .vNone)⟩,
    ⟨"vs_initial[1]", (p.vs_initial.getD 1 .vNone).isBool,
      typeMsg "bool" (p.vs_initial.getD 1 .vNone)⟩,
    ⟨"voltage_step[1]", (p.voltage_step.getD 1 .vNone).isNumber,
      typeMsg "Number" (p.voltage_step.getD 1 .vNone)⟩,
    ⟨"scan_rate[1]", (p.scan_rate.getD 1 .vNone).isNumber,
      typeMsg "Number" (p.scan_rate.getD 1 .vNone)⟩,
    ⟨"vs_initial[2]", (p.vs_initial.getD 2 .vNone).isBool,
      typeMsg "bool" (p.vs_initial.getD 2 .vNone)⟩,
    ⟨"voltage_step[2]", (p.voltage_step.getD 2 .vNone).isNumber,
      typeMsg "Number" (p.voltage_step.getD 2 .vNone)⟩,
    ⟨"scan_rate[2]", (p.scan_rate.getD 2 .vNone).isNumber,
      typeMsg "Number" (p.scan_rate.getD 2 .vNone)⟩,
    ⟨"vs_initial[3]", (p.vs_initial.getD 3 .vNone).isBool,
      typeMsg "bool" (p.vs_initial.getD 3 .vNone)⟩,
    ⟨"voltage_step[3]", (p.voltage_step.getD 3 .vNone).isNumber,
      typeMsg "Number" (p.voltage_step.getD 3 .vNone)⟩,
    ⟨"scan_rate[3]", (p.scan_rate.getD 3 .vNone).isNumber,
      typeMsg "Number" (p.scan_rate.getD 3 .vNone)⟩,
    ⟨"vs_initial[4]", (p.vs_initial.getD 4 .vNone).isBool,
      typeMsg "bool" (p.vs_initial.getD 4 .vNone)⟩,
    ⟨"voltage_step[4]", (p.voltage_step.getD 4 .vNone).isNumber,
      typeMsg "Number" (p.voltage_step.getD 4 .vNone)⟩,
    ⟨"scan_rate[4]", (p.scan_rate.getD 4 .vNone).isNumber,
      typeMsg "Number" (p.scan_rate.getD 4 .vNone)⟩,
    ⟨"record_every_dE", p.record_every_dE.isNumber,
      typeMsg "Number" p.record_every_dE⟩,
    ⟨"average_over_dE", p.average_over_dE.isBool,
      typeMsg "bool" p.average_over_dE⟩,
    ⟨"n_cycles", p.n_cycles.isNumber, typeMsg "Number" p.n_cycles⟩,
    ⟨"begin_measuring_i", p.begin_measuring_i.isNumber,
      typeMsg "Number" p.begin_measuring_i⟩,
    ⟨"end_measuring_i", p.end_measuring_i.isNumber,
      typeMsg "Number" p.end_measuring_i⟩,
    ⟨"E_range", p.E_range.isERange, typeMsg "E_RANGE" p.E_range⟩,
    ⟨"I_range", p.I_range.isIRange, typeMsg "I_RANGE" p.I_range⟩,
    ⟨"bandwidth", p.bandwidth.isBandwidth, typeMsg "BANDWIDTH" p.bandwidth⟩,
    ⟨"record_every_dE", specInRange p.record_every_dE rangeNonNeg,
      rangeMsg rangeNonNeg⟩,
    ⟨"n_cycles", specInRange p.n_cycles rangeNonNeg, rangeMsg rangeNonNeg⟩,
    ⟨"begin_measuring_i", specInRange p.begin_measuring_i rangeUnit,
      rangeMsg rangeUnit⟩,
    ⟨"end_measuring_i", specInRange p.end_measuring_i rangeUnit,
      rangeMsg rangeUnit⟩,
    ⟨"scan_rate[0]", specInRange (p.scan_rate.getD 0 .vNone) rangeNonNeg,
      rangeMsg rangeNonNeg⟩,
    ⟨"scan_rate[1]", specInRange (p.scan_rate.getD 1 .vNone) rangeNonNeg,
      rangeMsg rangeNonNeg⟩,
    ⟨"scan_rate[2]", specInRange (p.scan_rate.getD 2 .vNone) rangeNonNeg,
      rangeMsg rangeNonNeg⟩,
    ⟨"scan_rate[3]", specInRange (p.scan_rate.getD 3 .vNone) rangeNonNeg,
      rangeMsg rangeNonNeg⟩,
    ⟨"scan_rate[4]", specInRange (p.scan_rate.getD 4 .vNone) rangeNonNeg,
      rangeMsg rangeNonNeg⟩ ]

/-! ### Concrete fixtures used by witnesses and counterexamples -/

/-- A VMP3-family device. -/
def devVMP3 : DeviceInfo := ⟨.VMP3⟩

/-- A well-formed CV step. -/
def stepGood : CVStep := ⟨.vFloat 1, .vFloat 1, .vBool true⟩

/-- A fully-populated, validation-passing CV parameter set. -/
def cvGood : CVParams :=
  ⟨.vERange .E_RANGE_AUTO, .vIRange .I_RANGE_AUTO, .vBandwidth .BW_KEEP,
    .vFloat 1, .vBool false, .vInt 0, .vFloat 0, .vFloat 1,
    stepGood, stepGood, stepGood, stepGood⟩

/-- `cvGood` with a string where `record_every_dE` should be numeric. -/
def cvBadRecord : CVParams := { cvGood with record_every_dE := .vStr "x" }

/-- `cvGood` with a mistyped `record_every_dE` and an out-of-range
`n_cycles`. -/
def cvBadRecordNCycles : CVParams :=
  { cvGood with record_every_dE := .vStr "x", n_cycles := .vInt (-1) }

/-- An unpacking routine producing no records. -/
def unpackNothing : Frame → List (List Int) × Option PyExc :=
  fun _ => ([], none)

/-- A technique whose parameters pass validation. -/
def techOCV : Technique := ⟨.OCV, [], true, 5, 5, unpackNothing⟩

/-- A validation error used by the invalid fixtures. -/
def errRecordDT : ValidationError :=
  ⟨"record_every_dT", "value not in range: >= min"⟩

/-- A second validation error used by the invalid fixtures. -/
def errRestTime : ValidationError :=
  ⟨"rest_time_T", "value not in range: >= min"⟩

/-- A technique whose parameters fail validation (one error). -/
def techBadOCV : Technique := ⟨.OCV, [errRecordDT], true, 5, 5, unpackNothing⟩

/-- Another technique whose parameters fail validation. -/
def techBadOCV2 : Technique := ⟨.OCV, [errRestTime], true, 5, 5, unpackNothing⟩

/-- Channel limits compatible with the fixture techniques. -/
def infoOK : ChannelInfo := ⟨true, 0, 10, 10⟩

/-- An idle plugged channel. -/
def chanIdle : Channel := ⟨true, .STOP, none, false, infoOK⟩

/-- A running channel with an active pump generator and runner. -/
def chanRunning : Channel := ⟨true, .RUN, some .suspended, true, infoOK⟩

/-- A frame whose technique index is out of range of a 1-technique list. -/
def frameOutOfRange : Frame := ⟨.RUN, .OCV, 7, [[1, 2]]⟩

/-- A frame whose technique ID disagrees with the technique at index 0. -/
def frameMismatch : Frame := ⟨.RUN, .PEIS, 0, [[1, 2]]⟩

/-- A server with no open instrument connection. -/
def hostEmpty : HostState := ⟨none⟩

/-- A job targeting channel 0, outside the lock table. -/
def jobBadChannel : Job := ⟨"USB0", 0, [techOCV]⟩

/-- A trivially invertible message serializer used to instantiate the
framing theorems. -/
def serNat (n : Nat) : List Nat := List.replicate n 1

/-- The inverse of `serNat`. -/
def deserNat (l : List Nat) : Nat := l.length

/-! ## Theorems -/

/-- C8: for every CVParams instance built from its 4 configured steps,
each derived per-step array (`vs_initial`, `voltage_step`, `scan_rate`)
has length exactly 5 and its entries are the projections of the step
sequence (Ei, E1, E2, Ei, Ef) onto the corresponding step attribute. -/
theorem C8_derived_step_arrays (p : CVParams) :
    p.vs_initial.length = 5 ∧ p.voltage_step.length = 5 ∧
    p.scan_rate.length = 5 ∧
    p.step_sequence = [p.Ei, p.E1, p.E2, p.Ei, p.Ef] ∧
    p.vs_initial = [p.Ei.vs_initial, p.E1.vs_initial, p.E2.vs_initial,
      p.Ei.vs_initial, p.Ef.vs_initial] ∧
    p.voltage_step = [p.Ei.voltage, p.E1.voltage, p.E2.voltage,
      p.Ei.voltage, p.Ef.voltage] ∧
    p.scan_rate = [p.Ei.scan_rate, p.E1.scan_rate, p.E2.scan_rate,
      p.Ei.scan_rate, p.Ef.scan_rate] :=
  ⟨rfl, rfl, rfl, rfl, rfl, rfl, rfl⟩

/-- C5 (code bug): on a channel whose instrument state is not Stopped and
whose pump generator is live, `Channel.stop` re-raises the
`ChannelStopped` it threw into the generator (only `StopIteration` is
caught in `_close_gen`), so the hardware stop command is never issued,
the runner reference is not cleared and the channel stays `RUN`; the
already-stopped branch is a no-op as claimed. -/
theorem C5_stop_raises_out_of_close_gen :
    Channel.stop chanRunning =
      ({ chanRunning with gen := some .terminated }, [], some .channelStopped) ∧
    (Channel.stop chanRunning).1.runnerSet = true ∧
    (Channel.stop chanRunning).1.hwState = .RUN ∧
    Channel.stop chanIdle = (chanIdle, [], none) :=
  ⟨rfl, rfl, rfl, rfl⟩

/-- C6 (code bug): when the frame source raises, the runner captures the
exception (state `Error`, metadata status "ERROR") and records the stop
timestamp, but because `self.stop()` reaches `Channel.stop` on an active
channel it raises `ChannelStopped` out of `_close_gen`, which replaces
the original exception: the consumer receives `ChannelStopped`, not the
same exception, and the hardware stop command is never issued. -/
theorem C6_error_path_replaces_exception :
    TechniqueRunner.iter_data [techOCV] true
        [.raiseExc (.runtimeError "boom")] none =
      ⟨[], some (.runtimeError "boom"), none, true,
        .raised .channelStopped, 0⟩ ∧
    TechniqueRunner.state (some (.runtimeError "boom")) none = .Error ∧
    metadataStatus (some (.runtimeError "boom")) none = "ERROR" ∧
    TechniqueRunner.iter_data [techOCV] false
        [.raiseExc (.runtimeError "boom")] none =
      ⟨[], some (.runtimeError "boom"), none, true,
        .raised (.runtimeError "boom"), 0⟩ :=
  ⟨rfl, rfl, rfl, rfl⟩

/-- C7: a pulled frame carrying a technique identity whose index is out
of range of the runner's technique list, or whose technique ID disagrees
with the technique at that index, is logged and skipped: it contributes
no yielded item, captures no error, and iteration continues on the rest
of the stream with only the last observed state updated. -/
theorem C7_invalid_frames_skipped (techs : List Technique)
    (chanActive : Bool) (f : Frame) (rest : List GenEvent)
    (ls : Option PROG_STATE) (hid : f.tech_id ≠ .NONE)
    (hbad : techs[f.tech_index]? = none ∨
      ∃ t, techs[f.tech_index]? = some t ∧ f.tech_id ≠ t.tech_id) :
    TechniqueRunner.iter_data techs chanActive (.frame f :: rest) ls =
      (TechniqueRunner.iter_data techs chanActive rest
        (some f.prog_state)).addWarning := by
  rcases hbad with h | ⟨t, ht, hne⟩
  · simp [TechniqueRunner.iter_data, hid, h]
  · simp [TechniqueRunner.iter_data, hid, ht, hne]

/-- C7 witness: a frame with technique index 7 against a one-technique
list is skipped with a warning. -/
theorem C7_invalid_frames_skipped_witness :
    TechniqueRunner.iter_data [techOCV] true [.frame frameOutOfRange] none =
      (TechniqueRunner.iter_data [techOCV] true [] (some .RUN)).addWarning :=
  C7_invalid_frames_skipped [techOCV] true frameOutOfRange [] none
    (by decide) (Or.inl rfl)

/-- C10: a job whose channel number is outside the lock table
(`1 .. MAX_CHANNELS`) is rejected with an error message before any
device I/O: no connection is opened, closed or changed and no channel
operation is issued. -/
theorem C10_invalid_channel_rejected (st : HostState) (chan : Channel)
    (job : Job) (genEvents : List GenEvent)
    (h : channelHasLock job.channel = false) :
    handle_client_job st chan job genEvents =
      (st, [], [.errorMsg ("Invalid channel " ++ toString job.channel)]) := by
  simp [handle_client_job, h]

/-- C10 witness: channel 0 with 4 supported channels is rejected without
device I/O. -/
theorem C10_invalid_channel_rejected_witness :
    handle_client_job hostEmpty chanIdle jobBadChannel [] =
      (hostEmpty, [], [.errorMsg "Invalid channel 0"]) := by
  have h := C10_invalid_channel_rejected hostEmpty chanIdle jobBadChannel []
    rfl
  simpa using h

/-- Helper: loading a run of valid techniques emits one load command per
index, first/last flags computed against the full count `n`. -/
theorem loadTechniquesGo_all_ok (n : Nat) :
    ∀ (techs : List Technique) (idx : Nat), (∀ t ∈ techs, t.errors = []) →
      loadTechniquesGo n idx techs =
        ((List.range' idx techs.length).map
          (fun i => .load i (i == 0) (i == n - 1)), none) := by
  intro techs
  induction techs with
  | nil => intro idx _; simp [loadTechniquesGo]
  | cons t rest ih =>
    intro idx h
    have ht := h t (List.mem_cons_self t rest)
    have hrest : ∀ x ∈ rest, x.errors = [] :=
      fun x hx => h x (List.mem_cons_of_mem t hx)
    simp [loadTechniquesGo, ht, ih (idx + 1) hrest, List.range'_succ]

/-- Helper: loading stops at the first technique that fails validation;
techniques before it have already been loaded, and the raised group
carries exactly that technique's errors. -/
theorem loadTechniquesGo_first_bad (n : Nat) :
    ∀ (techs : List Technique) (idx k : Nat) (t : Technique),
      techs.findIdx? (fun t => !t.errors.isEmpty) = some k →
      techs[k]? = some t →
      loadTechniquesGo n idx techs =
        ((List.range' idx k).map (fun i => .load i (i == 0) (i == n - 1)),
          some (.exceptionGroup "technique parameters failed validation"
            t.errors)) := by
  intro techs
  induction techs with
  | nil => intro idx k t h _; simp at h
  | cons x rest ih =>
    intro idx k t hfind hget
    by_cases hx : x.errors = []
    · have hpx : (!x.errors.isEmpty) = false := by simp [hx]
      rw [List.findIdx?_cons, if_neg (by simp [hpx]),
        List.findIdx?_succ] at hfind
      rcases Option.map_eq_some'.mp hfind with ⟨k', hk', hkk⟩
      subst hkk
      have hget' : rest[k']? = some t := by simpa using hget
      simp [loadTechniquesGo, hx, ih (idx + 1) k' t hk' hget',
        List.range'_succ]
    · have hpx : (!x.errors.isEmpty) = true := by
        simpa using hx
      rw [List.findIdx?_cons, if_pos hpx] at hfind
      have hk0 : k = 0 := (Option.some.inj hfind).symm
      subst hk0
      have hxt : x = t := by
        simpa using hget
      subst hxt
      simp [loadTechniquesGo, hx]

/-- C1 (counterexample): a valid technique followed by two invalid ones:
`run_techniques` issues a load call for the first technique even though
later techniques fail validation, and the reported failure carries only
the first invalid technique's errors, omitting the other invalid
technique's error and naming no technique index. -/
theorem C1_counterexample :
    (Channel.run_techniques chanIdle [techOCV, techBadOCV, techBadOCV2]).2.1 =
      [.load 0 true false] ∧
    (Channel.run_techniques chanIdle [techOCV, techBadOCV, techBadOCV2]).2.2 =
      some (.exceptionGroup "technique parameters failed validation"
        [errRecordDT]) :=
  ⟨rfl, rfl⟩

/-- C1 (amended): under passing preconditions, `run_techniques` validates
each technique immediately before loading it: when every technique
passes validation, all are loaded in order and the channel starts; when
some technique fails, every technique before the first invalid one has
already been loaded, and the raised failure aggregates exactly the first
invalid technique's own errors (naming parameters, not the technique
index), with no load call from the first invalid technique onward. -/
theorem C1_per_technique_validation (c : Channel) (techs : List Technique)
    (hplug : c.plugged = true) (hstop : c.hwState = .STOP)
    (hsupp : ∀ t ∈ techs, t.supported = true)
    (hlim : checkLimits c.info techs = none) :
    ((∀ t ∈ techs, t.errors = []) →
      Channel.run_techniques c techs =
        ({ c with
            hwState := .RUN, gen := some .suspended, runnerSet := true },
          (List.range techs.length).map
            (fun i => .load i (i == 0) (i == techs.length - 1)) ++ [.start],
          none)) ∧
    (∀ k t, techs.findIdx? (fun t => !t.errors.isEmpty) = some k →
      techs[k]? = some t →
      Channel.run_techniques c techs =
        (c, (List.range k).map
            (fun i => .load i (i == 0) (i == techs.length - 1)),
          some (.exceptionGroup "technique parameters failed validation"
            t.errors))) := by
  have hfilter : techs.filter (fun t => !t.supported) = [] := by
    rw [List.filter_eq_nil_iff]
    intro t ht
    simp [hsupp t ht]
  constructor
  · intro hall
    rw [Channel.run_techniques]
    simp only [hplug, hstop, hfilter, hlim, List.isEmpty_nil, Bool.not_true,
      Bool.not_false, ne_eq, not_true_eq_false, if_false, if_true]
    rw [loadTechniques, loadTechniquesGo_all_ok techs.length techs 0 hall]
    simp [List.range_eq_range']
  · intro k t hfind hget
    rw [Channel.run_techniques]
    simp only [hplug, hstop, hfilter, hlim, List.isEmpty_nil, Bool.not_true,
      Bool.not_false, ne_eq, not_true_eq_false, if_false, if_true]
    rw [loadTechniques, loadTechniquesGo_first_bad techs.length techs 0 k t
      hfind hget]
    simp [List.range_eq_range']

/-- C1 witness: a valid then an invalid technique; the first is loaded,
then the failure carries the second technique's errors. -/
theorem C1_per_technique_validation_witness :
    Channel.run_techniques chanIdle [techOCV, techBadOCV] =
      (chanIdle, [.load 0 true false],
        some (.exceptionGroup "technique parameters failed validation"
          [errRecordDT])) := by
  have h := (C1_per_technique_validation chanIdle [techOCV, techBadOCV]
    rfl rfl (by simp [techOCV, techBadOCV]) rfl).2 1 techBadOCV rfl rfl
  simpa using h

/-- Helper: the length header round-trips for lengths below `2^32`. -/
theorem be32_decode (n : Nat) (h : n < 2 ^ 32) : be32decode (be32 n) = n := by
  simp only [be32, be32decode]
  omega

/-- C9: the wire framing round-trips: `send_msg` emits a 4-byte
big-endian length prefix followed by exactly that many serialized body
bytes, `recv_msg` on those bytes returns the sent message, and on any
strict prefix of them (stream closed before a complete header or body)
it returns the distinguished closed-connection result `none`. -/
theorem C9_framing_roundtrip {μ : Type} (ser : μ → List Nat)
    (deser : List Nat → μ) (m : μ)
    (hround : deser (ser m) = m) (hlen : (ser m).length < 2 ^ 32) :
    recv_msg deser (send_msg ser m) = some m ∧
    ∀ k, k < (send_msg ser m).length →
      recv_msg deser ((send_msg ser m).take k) = none := by
  have hb4 : (be32 (ser m).length).length = 4 := rfl
  have hslen : (send_msg ser m).length = 4 + (ser m).length := by
    simp [send_msg, be32]
    omega
  constructor
  · have h1 : recv_exact (send_msg ser m) 4 =
        some (be32 (ser m).length, ser m) := by
      unfold recv_exact
      rw [if_neg (by omega), send_msg, List.take_left' hb4,
        List.drop_left' hb4]
    have h2 : recv_exact (ser m) (ser m).length = some (ser m, []) := by
      unfold recv_exact
      rw [if_neg (by omega), List.take_length, List.drop_length]
    unfold recv_msg
    rw [h1]
    simp only [Option.bind_eq_bind, Option.some_bind]
    rw [be32_decode _ hlen, h2]
    simp [hround]
  · intro k hk
    by_cases hk4 : k < 4
    · have h1 : recv_exact ((send_msg ser m).take k) 4 = none := by
        unfold recv_exact
        rw [if_pos]
        rw [List.length_take]
        omega
      unfold recv_msg
      rw [h1]
      rfl
    · have htk : (send_msg ser m).take k =
          be32 (ser m).length ++ (ser m).take (k - 4) := by
        rw [send_msg, List.take_append_eq_append_take,
          List.take_of_length_le (by omega), hb4]
      have h1 : recv_exact ((send_msg ser m).take k) 4 =
          some (be32 (ser m).length, (ser m).take (k - 4)) := by
        unfold recv_exact
        rw [htk, if_neg (by simp [be32]), List.take_left' hb4,
          List.drop_left' hb4]
      have h2 : recv_exact ((ser m).take (k - 4)) (ser m).length = none := by
        unfold recv_exact
        rw [if_pos]
        rw [List.length_take]
        omega
      unfold recv_msg
      rw [h1]
      simp only [Option.bind_eq_bind, Option.some_bind]
      rw [be32_decode _ hlen, h2]
      rfl

/-- C9 witness: the concrete `serNat`/`deserNat` codec at message 3
round-trips, and a 2-byte prefix reads as a closed connection. -/
theorem C9_framing_roundtrip_witness :
    recv_msg deserNat (send_msg serNat 3) = some 3 ∧
    recv_msg deserNat ((send_msg serNat 3).take 2) = none :=
  ⟨(C9_framing_roundtrip serNat deserNat 3 rfl (by decide)).1,
    (C9_framing_roundtrip serNat deserNat 3 rfl (by decide)).2 2 (by decide)⟩

set_option maxHeartbeats 1600000 in
/-- Helper: on numeric values the range comparison never raises and the
verdict agrees with the specification-side membership. -/
theorem containsVal_numeric (mn mx : Option ℚ) (ms xs : Bool) (v : PyVal)
    (q : ℚ) (hq : v.toRat = some q) (hnn : v.isNone = false) :
    DataRange.containsVal ⟨mn, mx, ms, xs⟩ v =
      .ok (specInRange v ⟨mn, mx, ms, xs⟩) := by
  unfold DataRange.containsVal DataRange.compareLowerBound
    DataRange.compareUpperBound specInRange
  rw [hq]
  simp only [hnn, Bool.false_eq_true, if_false]
  rcases mn with _ | M
  · rcases mx with _ | X
    · cases ms <;> cases xs <;>
        simp [Bind.bind, Except.bind]
    · cases ms <;> cases xs <;>
        rcases lt_trichotomy q X with hX | hX | hX <;>
        simp only [Bool.not_false, Bool.not_true, Bool.true_and,
          Bool.false_and, Bool.and_true, Bool.and_false, Bind.bind,
          Except.bind] <;>
        split_ifs <;>
        (try simp_all) <;>
        first
          | rfl
          | linarith
          | (exfalso; linarith)
          | (intro hcon; linarith)
          | (constructor <;> linarith)
  · rcases mx with _ | X
    · cases ms <;> cases xs <;>
        rcases lt_trichotomy M q with hM | hM | hM <;>
        simp only [Bool.not_false, Bool.not_true, Bool.true_and,
          Bool.false_and, Bool.and_true, Bool.and_false, Bind.bind,
          Except.bind] <;>
        split_ifs <;>
        (try simp_all) <;>
        first
          | rfl
          | linarith
          | (exfalso; linarith)
          | (intro hcon; linarith)
          | (constructor <;> linarith)
    · cases ms <;> cases xs <;>
        rcases lt_trichotomy M q with hM | hM | hM <;>
        rcases lt_trichotomy q X with hX | hX | hX <;>
        simp only [Bool.not_false, Bool.not_true, Bool.true_and,
          Bool.false_and, Bool.and_true, Bool.and_false, Bind.bind,
          Except.bind] <;>
        split_ifs <;>
        (try simp_all) <;>
        first
          | rfl
          | linarith
          | (exfalso; linarith)
          | (intro hcon; linarith)
          | (constructor <;> linarith)

/-- Helper: on comparable values (numeric or `None`) the range
comparison never raises and agrees with the specification-side
membership. -/
theorem containsVal_comparable (r : DataRange) (v : PyVal)
    (h : rangeComparable v = true) :
    r.containsVal v = .ok (specInRange v r) := by
  rcases r with ⟨mn, mx, ms, xs⟩
  cases v with
  | vNone =>
    unfold DataRange.containsVal DataRange.compareLowerBound
      DataRange.compareUpperBound specInRange
    rcases mn with _ | M <;> rcases mx with _ | X <;>
      simp [PyVal.isNone, PyVal.toRat, Bind.bind, Except.bind]
  | vBool b => exact containsVal_numeric mn mx ms xs _ _ rfl rfl
  | vInt n => exact containsVal_numeric mn mx ms xs _ _ rfl rfl
  | vFloat q => exact containsVal_numeric mn mx ms xs _ _ rfl rfl
  | vStr s => simp [rangeComparable, PyVal.isNumber, PyVal.isNone] at h
  | vERange e => simp [rangeComparable, PyVal.isNumber, PyVal.isNone] at h
  | vIRange i => simp [rangeComparable, PyVal.isNumber, PyVal.isNone] at h
  | vBandwidth bw =>
    simp [rangeComparable, PyVal.isNumber, PyVal.isNone] at h
  | vList xs2 => simp [rangeComparable, PyVal.isNumber, PyVal.isNone] at h
  | vObj fs => simp [rangeComparable, PyVal.isNumber, PyVal.isNone] at h

/-- Helper: on comparable values `validate_data_range` yields the
specification-side check result. -/
theorem validate_data_range_comparable (v : PyVal) (nm : String)
    (r : DataRange) (h : rangeComparable v = true) :
    validate_data_range v nm r =
      .ok (Check.toOption ⟨nm, specInRange v r, rangeMsg r⟩) := by
  unfold validate_data_range
  rw [containsVal_comparable r v h]
  simp only [Bind.bind, Except.bind]
  cases specInRange v r <;> rfl

/-- Helper: the scalar branch of the range-check dispatch on comparable
values. -/
theorem rangeTests_comparable (v : PyVal) (nm : String) (r : DataRange)
    (h : rangeComparable v = true) :
    rangeTests v nm r =
      .ok [Check.toOption ⟨nm, specInRange v r, rangeMsg r⟩] := by
  have hv := validate_data_range_comparable v nm r h
  cases v with
  | vNone => simp [rangeTests, hv, Except.map]
  | vBool b => simp [rangeTests, hv, Except.map]
  | vInt n => simp [rangeTests, hv, Except.map]
  | vFloat q => simp [rangeTests, hv, Except.map]
  | vStr s => simp [rangeComparable, PyVal.isNumber, PyVal.isNone] at h
  | vERange e => simp [rangeTests, hv, Except.map]
  | vIRange i => simp [rangeTests, hv, Except.map]
  | vBandwidth bw => simp [rangeTests, hv, Except.map]
  | vList xs => simp [rangeComparable, PyVal.isNumber, PyVal.isNone] at h
  | vObj fs => simp [rangeComparable, PyVal.isNumber, PyVal.isNone] at h

/-- Helper: per-element range checks over a 5-element list of comparable
values. -/
theorem rangeTestsElems5 (nm : String) (r : DataRange) (a b c d e : PyVal)
    (ha : rangeComparable a = true) (hb : rangeComparable b = true)
    (hc : rangeComparable c = true) (hd : rangeComparable d = true)
    (he : rangeComparable e = true) :
    rangeTestsElems nm r 0 [a, b, c, d, e] =
      .ok [Check.toOption ⟨nm ++ "[" ++ toString 0 ++ "]", specInRange a r,
          rangeMsg r⟩,
        Check.toOption ⟨nm ++ "[" ++ toString 1 ++ "]", specInRange b r,
          rangeMsg r⟩,
        Check.toOption ⟨nm ++ "[" ++ toString 2 ++ "]", specInRange c r,
          rangeMsg r⟩,
        Check.toOption ⟨nm ++ "[" ++ toString 3 ++ "]", specInRange d r,
          rangeMsg r⟩,
        Check.toOption ⟨nm ++ "[" ++ toString 4 ++ "]", specInRange e r,
          rangeMsg r⟩] := by
  simp [rangeTestsElems, validate_data_range_comparable _ _ _ ha,
    validate_data_range_comparable _ _ _ hb,
    validate_data_range_comparable _ _ _ hc,
    validate_data_range_comparable _ _ _ hd,
    validate_data_range_comparable _ _ _ he, Bind.bind, Except.bind]

/-- Helper: under comparable range-checked values, fully consuming
`CVParams.validate` yields exactly the failed checks of `cvChecks`, in
evaluation order, and raises nothing. -/
theorem validate_comparable (dev : DeviceInfo) (p : CVParams)
    (h : RangeComparableCV p) :
    CVParams.validate dev p =
      (((cvChecks p).map Check.toOption).filterMap id, none) := by
  obtain ⟨h1, h2, h3, h4, h5, h6, h7, h8⟩ := h
  have hsr : rangeTests (.vList p.scan_rate) "scan_rate" rangeNonNeg =
      .ok [Check.toOption ⟨"scan_rate" ++ "[" ++ toString 0 ++ "]",
          specInRange p.Ei.scan_rate rangeNonNeg, rangeMsg rangeNonNeg⟩,
        Check.toOption ⟨"scan_rate" ++ "[" ++ toString 1 ++ "]",
          specInRange p.E1.scan_rate rangeNonNeg, rangeMsg rangeNonNeg⟩,
        Check.toOption ⟨"scan_rate" ++ "[" ++ toString 2 ++ "]",
          specInRange p.E2.scan_rate rangeNonNeg, rangeMsg rangeNonNeg⟩,
        Check.toOption ⟨"scan_rate" ++ "[" ++ toString 3 ++ "]",
          specInRange p.Ei.scan_rate rangeNonNeg, rangeMsg rangeNonNeg⟩,
        Check.toOption ⟨"scan_rate" ++ "[" ++ toString 4 ++ "]",
          specInRange p.Ef.scan_rate rangeNonNeg, rangeMsg rangeNonNeg⟩] :=
    rangeTestsElems5 "scan_rate" rangeNonNeg p.Ei.scan_rate p.E1.scan_rate
      p.E2.scan_rate p.Ei.scan_rate p.Ef.scan_rate h5 h6 h7 h5 h8
  unfold CVParams.validate baseTests
  rw [rangeTests_comparable _ _ _ h1, rangeTests_comparable _ _ _ h2,
    rangeTests_comparable _ _ _ h3, rangeTests_comparable _ _ _ h4, hsr]
  simp only [Bind.bind, Except.bind]
  simp only [← List.filterMap_append]
  exact congrArg (fun l => (List.filterMap id l, (none : Option PyExc))) rfl

/-- Helper: the parameter names of the yielded errors of a mapped check
list are the names of its failed checks. -/
theorem check_names (l : List Check) :
    ((l.map Check.toOption).filterMap id).map (·.param) =
      (l.filter (fun c => !c.passed)).map (·.name) := by
  induction l with
  | nil => rfl
  | cons c rest ih =>
    simp only [List.filterMap_map, Function.id_comp] at ih
    cases hc : c.passed <;>
      simp [Check.toOption, hc, List.filterMap_map, ih]

/-- Helper: filtering commutes with the name/verdict projection. -/
theorem check_proj (l : List Check) :
    (l.filter (fun c => !c.passed)).map (·.name) =
      ((l.map (fun c => (c.name, c.passed))).filter (fun c => !c.2)).map
        (·.1) := by
  induction l with
  | nil => rfl
  | cons c rest ih =>
    cases hc : c.passed <;> simp [hc, ih]

/-- Helper: the evaluated check list projects onto the spec checklist. -/
theorem cvChecks_proj (p : CVParams) :
    (cvChecks p).map (fun c => (c.name, c.passed)) = specChecklist p := rfl

/-- C3 (counterexample): with `record_every_dE = "x"` (mistyped) and
`n_cycles = -1` (range-violating), fully consuming validate yields
exactly one error, for `record_every_dE`, and then raises `TypeError`:
the violated field `n_cycles` receives no error — fewer than one error
per violated field, and not the empty-vs-violated dichotomy claimed. -/
theorem C3_counterexample :
    (CVParams.validate devVMP3 cvBadRecordNCycles).1.map (·.param) =
      ["record_every_dE"] ∧
    (CVParams.validate devVMP3 cvBadRecordNCycles).2 = some .typeError ∧
    cvBadRecordNCycles.n_cycles.isNumber = true ∧
    specInRange cvBadRecordNCycles.n_cycles rangeNonNeg = false :=
  ⟨rfl, rfl, rfl, rfl⟩

/-- C3 (amended): when every range-checked parameter value is comparable
(numeric or None), validate raises nothing, yields the empty collection
iff every declared type and range constraint holds for the device, and
yields at least one error naming each violated field, with array-valued
parameters checked per scalar element under distinct element names. -/
theorem C3_validate_iff (dev : DeviceInfo) (p : CVParams)
    (h : RangeComparableCV p) :
    (CVParams.validate dev p).2 = none ∧
    ((CVParams.validate dev p).1 = [] ↔ specViolated p = []) ∧
    (∀ nm ∈ specViolated p, ∃ e ∈ (CVParams.validate dev p).1,
      e.param = nm) := by
  have hmain := validate_comparable dev p h
  have hnames : ((CVParams.validate dev p).1).map (·.param) =
      specViolated p := by
    rw [hmain]
    show ((((cvChecks p).map Check.toOption).filterMap id).map (·.param)) = _
    rw [check_names, check_proj, cvChecks_proj]
    rfl
  refine ⟨by rw [hmain], ⟨?_, ?_⟩, ?_⟩
  · intro he
    rw [← hnames, he]
    rfl
  · intro hv
    rw [hv] at hnames
    exact List.map_eq_nil_iff.mp hnames
  · intro nm hnm
    rw [← hnames] at hnm
    rcases List.mem_map.mp hnm with ⟨e, he, hep⟩
    exact ⟨e, he, hep⟩

/-- C3 witness: the valid fixture has comparable values, validate yields
nothing and raises nothing, matching the empty spec-violation list. -/
theorem C3_validate_iff_witness :
    (CVParams.validate devVMP3 cvGood).2 = none ∧
    ((CVParams.validate devVMP3 cvGood).1 = [] ↔
      specViolated cvGood = []) :=
  ⟨(C3_validate_iff devVMP3 cvGood
      ⟨rfl, rfl, rfl, rfl, rfl, rfl, rfl, rfl⟩).1,
    (C3_validate_iff devVMP3 cvGood
      ⟨rfl, rfl, rfl, rfl, rfl, rfl, rfl, rfl⟩).2.1⟩

/-- C4 (amended): fully consuming validate raises nothing provided every
range-checked parameter value (including each derived scan-rate entry)
is numeric or None; under that proviso every failure is delivered as a
yielded named error. -/
theorem C4_validate_never_raises (dev : DeviceInfo) (p : CVParams)
    (h : RangeComparableCV p) :
    (CVParams.validate dev p).2 = none := by
  rw [validate_comparable dev p h]

/-- C4 (counterexample): a string on the range-carrying
`record_every_dE` makes full consumption of validate raise a `TypeError`
out of the range comparison, instead of only yielding named errors. -/
theorem C4_counterexample :
    (CVParams.validate devVMP3 cvBadRecord).2 = some .typeError := rfl

/-- C4 witness: the valid fixture raises nothing. -/
theorem C4_validate_never_raises_witness :
    (CVParams.validate devVMP3 cvGood).2 = none :=
  C4_validate_never_raises devVMP3 cvGood
    ⟨rfl, rfl, rfl, rfl, rfl, rfl, rfl, rfl⟩

/-- Helper: a structured-form mapping is never `None`. -/
theorem isNone_vObj (l : List (String × PyVal)) :
    (PyVal.vObj l).isNone = false := rfl

/-- Helper: a field whose value is not `None` is kept in the structured
form. -/
theorem jsonField_not_none {v : PyVal} (h : v.isNone = false)
    (nm : String) : jsonField nm v = [(nm, v)] := by
  simp [jsonField, h]

/-- Helper: string-serialized fields are kept. -/
theorem jsonField_vStr (nm s : String) :
    jsonField nm (.vStr s) = [(nm, .vStr s)] := rfl

/-- Helper: step-serialized fields are kept. -/
theorem jsonField_to_json (nm : String) (s : CVStep) :
    jsonField nm s.to_json = [(nm, s.to_json)] := rfl

/-- Helper: a passed type check means the category predicate holds. -/
theorem validate_type_eq_none {v : PyVal} {nm tn : String}
    {f : PyVal → Bool} (h : validate_type v nm f tn = none) : f v = true := by
  cases hf : f v
  · unfold validate_type at h
    rw [hf] at h
    simp at h
  · rfl

/-- Helper: numeric values are not `None`. -/
theorem isNumber_not_none {v : PyVal} (h : v.isNumber = true) :
    v.isNone = false := by
  cases v <;> simp_all [PyVal.isNumber, PyVal.isNone]

/-- Helper: boolean values are not `None`. -/
theorem isBool_not_none {v : PyVal} (h : v.isBool = true) :
    v.isNone = false := by
  cases v <;> simp_all [PyVal.isBool, PyVal.isNone]

/-- Helper: numeric values are range-comparable. -/
theorem rangeComparable_of_isNumber {v : PyVal} (h : v.isNumber = true) :
    rangeComparable v = true := by
  simp [rangeComparable, h]

/-- Helper: the shape of an `E_RANGE`-typed value. -/
theorem isERange_shape {v : PyVal} (h : v.isERange = true) :
    ∃ e, v = .vERange e := by
  cases v <;> simp_all [PyVal.isERange]

/-- Helper: the shape of an `I_RANGE`-typed value. -/
theorem isIRange_shape {v : PyVal} (h : v.isIRange = true) :
    ∃ i, v = .vIRange i := by
  cases v <;> simp_all [PyVal.isIRange]

/-- Helper: the shape of a `BANDWIDTH`-typed value. -/
theorem isBandwidth_shape {v : PyVal} (h : v.isBandwidth = true) :
    ∃ bw, v = .vBandwidth bw := by
  cases v <;> simp_all [PyVal.isBandwidth]

/-- Helper: `E_RANGE` name lookup inverts the name. -/
theorem eRange_fromName_toName (e : E_RANGE) :
    E_RANGE.fromName e.toName = some e := by
  cases e <;> rfl

/-- Helper: `I_RANGE` name lookup inverts the name. -/
theorem iRange_fromName_toName (i : I_RANGE) :
    I_RANGE.fromName i.toName = some i := by
  cases i <;> rfl

/-- Helper: `BANDWIDTH` name lookup inverts the name. -/
theorem bandwidth_fromName_toName (bw : BANDWIDTH) :
    BANDWIDTH.fromName bw.toName = some bw := by
  cases bw <;> rfl

set_option maxHeartbeats 4000000 in
/-- Helper: parsing the serialized form of a fully-populated instance:
enum names convert back through name lookup, raw scalars pass through,
steps rebuild from their mappings, and the dataclass reassembles. -/
theorem from_json_literal (e : E_RANGE) (i : I_RANGE) (bw : BANDWIDTH)
    (rde avg nc bm em : PyVal) (s1 s2 s3 s4 : CVStep) :
    CVParams.from_json [("E_range", .vStr e.toName),
      ("I_range", .vStr i.toName), ("bandwidth", .vStr bw.toName),
      ("record_every_dE", rde), ("average_over_dE", avg),
      ("n_cycles", nc), ("begin_measuring_i", bm),
      ("end_measuring_i", em), ("Ei", s1.to_json), ("E1", s2.to_json),
      ("E2", s3.to_json), ("Ef", s4.to_json)] =
      .ok ⟨.vERange e, .vIRange i, .vBandwidth bw, rde, avg, nc, bm, em,
        s1, s2, s3, s4⟩ := by
  cases e <;> cases i <;> cases bw <;> rfl

/-- C2: for every fully-populated, validation-passing CVParams instance,
`from_json` of `to_json` returns an equal instance (equality over all
non-derived declared fields), and every derived parameter evaluated on
the round-tripped instance equals its value on the original. -/
theorem C2_roundtrip (dev : DeviceInfo) (p : CVParams)
    (h : CVParams.validate dev p = ([], none)) :
    (CVParams.to_json p).bind CVParams.from_json = .ok p ∧
    ∀ q, (CVParams.to_json p).bind CVParams.from_json = .ok q →
      q.vs_initial = p.vs_initial ∧ q.voltage_step = p.voltage_step ∧
      q.scan_rate = p.scan_rate := by
  have hround : (CVParams.to_json p).bind CVParams.from_json = .ok p := by
    -- extract the exception-free base pass and the empty CV error list
    have hcv : (cvTests p).filterMap id = [] := by
      unfold CVParams.validate at h
      rcases hbt : baseTests p with e | ts <;> rw [hbt] at h
      · exact absurd (congrArg Prod.snd h) (by simp)
      · exact (List.append_eq_nil.mp (congrArg Prod.fst h)).1
    have hallcv := List.filterMap_eq_nil_iff.mp hcv
    -- type facts from the CV-specific checks
    have hrec : p.record_every_dE.isNumber = true :=
      validate_type_eq_none (hallcv
        (validate_type p.record_every_dE "record_every_dE" PyVal.isNumber
          "Number") (by simp [cvTests]))
    have havg : p.average_over_dE.isBool = true :=
      validate_type_eq_none (hallcv
        (validate_type p.average_over_dE "average_over_dE" PyVal.isBool
          "bool") (by simp [cvTests]))
    have hnc : p.n_cycles.isNumber = true :=
      validate_type_eq_none (hallcv
        (validate_type p.n_cycles "n_cycles" PyVal.isNumber "Number")
        (by simp [cvTests]))
    have hbm : p.begin_measuring_i.isNumber = true :=
      validate_type_eq_none (hallcv
        (validate_type p.begin_measuring_i "begin_measuring_i"
          PyVal.isNumber "Number") (by simp [cvTests]))
    have hem : p.end_measuring_i.isNumber = true :=
      validate_type_eq_none (hallcv
        (validate_type p.end_measuring_i "end_measuring_i" PyVal.isNumber
          "Number") (by simp [cvTests]))
    have hs0 : p.Ei.scan_rate.isNumber = true :=
      validate_type_eq_none (hallcv
        (validate_type (p.scan_rate.getD 0 .vNone) "scan_rate[0]"
          PyVal.isNumber "Number") (by simp [cvTests]))
    have hs1 : p.E1.scan_rate.isNumber = true :=
      validate_type_eq_none (hallcv
        (validate_type (p.scan_rate.getD 1 .vNone) "scan_rate[1]"
          PyVal.isNumber "Number") (by simp [cvTests]))
    have hs2 : p.E2.scan_rate.isNumber = true :=
      validate_type_eq_none (hallcv
        (validate_type (p.scan_rate.getD 2 .vNone) "scan_rate[2]"
          PyVal.isNumber "Number") (by simp [cvTests]))
    have hs4 : p.Ef.scan_rate.isNumber = true :=
      validate_type_eq_none (hallcv
        (validate_type (p.scan_rate.getD 4 .vNone) "scan_rate[4]"
          PyVal.isNumber "Number") (by simp [cvTests]))
    -- comparability, then the checklist facts for the enum parameters
    have hcomp : RangeComparableCV p :=
      ⟨rangeComparable_of_isNumber hrec, rangeComparable_of_isNumber hnc,
        rangeComparable_of_isNumber hbm, rangeComparable_of_isNumber hem,
        rangeComparable_of_isNumber hs0, rangeComparable_of_isNumber hs1,
        rangeComparable_of_isNumber hs2, rangeComparable_of_isNumber hs4⟩
    have hmain := validate_comparable dev p hcomp
    have hnames : ((CVParams.validate dev p).1).map (·.param) =
        specViolated p := by
      rw [hmain]
      show ((((cvChecks p).map Check.toOption).filterMap id).map
        (·.param)) = _
      rw [check_names, check_proj, cvChecks_proj]
      rfl
    have hvnil : specViolated p = [] := by
      rw [← hnames, h]
      rfl
    have hfil : (specChecklist p).filter (fun c => !c.2) = [] :=
      List.map_eq_nil_iff.mp hvnil
    have hallx : ∀ c ∈ specChecklist p, c.2 = true := by
      intro c hc
      have hfl := List.filter_eq_nil_iff.mp hfil c hc
      simpa using hfl
    have hER : p.E_range.isERange = true :=
      hallx ("E_range", p.E_range.isERange) (by simp [specChecklist])
    have hIR : p.I_range.isIRange = true :=
      hallx ("I_range", p.I_range.isIRange) (by simp [specChecklist])
    have hBW : p.bandwidth.isBandwidth = true :=
      hallx ("bandwidth", p.bandwidth.isBandwidth) (by simp [specChecklist])
    obtain ⟨e, he⟩ := isERange_shape hER
    obtain ⟨i, hi⟩ := isIRange_shape hIR
    obtain ⟨bw, hbw⟩ := isBandwidth_shape hBW
    -- compute the serialized form and parse it back
    rw [CVParams.to_json, he, hi, hbw]
    simp only [enumNameJson, eRangeName, iRangeName, bandwidthName,
      Bind.bind, Except.bind]
    simp only [jsonField_not_none (isNumber_not_none hrec),
      jsonField_not_none (isBool_not_none havg),
      jsonField_not_none (isNumber_not_none hnc),
      jsonField_not_none (isNumber_not_none hbm),
      jsonField_not_none (isNumber_not_none hem),
      jsonField_vStr, jsonField_to_json, List.cons_append,
      List.nil_append, List.append_nil, List.append_assoc,
      List.singleton_append]
    rw [from_json_literal e i bw p.record_every_dE p.average_over_dE
      p.n_cycles p.begin_measuring_i p.end_measuring_i p.Ei p.E1 p.E2 p.Ef,
      ← he, ← hi, ← hbw]
  refine ⟨hround, ?_⟩
  intro q hq
  rw [hround] at hq
  cases hq
  exact ⟨rfl, rfl, rfl⟩

/-- C2 witness: the valid fixture round-trips through the structured
form, derived arrays included. -/
theorem C2_roundtrip_witness :
    (CVParams.to_json cvGood).bind CVParams.from_json = .ok cvGood ∧
    cvGood.vs_initial = cvGood.vs_initial ∧
    cvGood.voltage_step = cvGood.voltage_step ∧
    cvGood.scan_rate = cvGood.scan_rate :=
  ⟨(C2_roundtrip devVMP3 cvGood rfl).1,
    (C2_roundtrip devVMP3 cvGood rfl).2 cvGood
      (C2_roundtrip devVMP3 cvGood rfl).1⟩

end BL
